import Mathlib

set_option maxRecDepth 8192
set_option maxHeartbeats 1000000

/-!
Shallow embedding of the research-note parsing core of the repository
(backend/research_agent.py): the `_parse_research_note` method, its
source-line sub-parser, the `_validate_research_output` contract check and
the `_is_valid_url` validator.  Python strings are modelled as Lean
`String` (a wrapper around `List Char`); the Python `str` operations used
by the code (`strip`, `split`, `replace`, `upper`, `find`, slicing,
`startswith`, membership) are defined below with Python semantics for the
ASCII texts the parser handles.  The method body runs inside
`try/except`; it is modelled by `parseBody`, which returns
`Except String _` (`Except.error` marks an exception reaching the
`except` clause), wrapped by `_parse_research_note` which converts an
error into the error-marked default record exactly as the handler does.
The reference to the name `search_results` in the fallback-extraction
guard is unbound in the scope of the method, so evaluating that guard
raises `NameError`; this is the sole `Except.error` site of the body.
-/

/-- Python whitespace for `str.strip` (space, tab, newline, carriage
return, vertical tab, form feed; the texts handled are ASCII). -/
def isPySpace (c : Char) : Bool :=
  c == ' ' || c == '\t' || c == '\n' || c == '\r' ||
  c == Char.ofNat 11 || c == Char.ofNat 12

/-- Python `str.strip()` on the character list. -/
def stripL (l : List Char) : List Char :=
  ((l.dropWhile isPySpace).reverse.dropWhile isPySpace).reverse

/-- Python `s.strip()`. -/
def pstrip (s : String) : String := ⟨stripL s.data⟩

/-- Python `s.upper()` (ASCII). -/
def pyUpper (s : String) : String := ⟨s.data.map Char.toUpper⟩

/-- Python `s.lower()` (ASCII). -/
def pyLower (s : String) : String := ⟨s.data.map Char.toLower⟩

/-- Python `s.startswith(p)`. -/
def pyStartsWith (s p : String) : Bool := p.data.isPrefixOf s.data

/-- Python `s.startswith(tuple)`. -/
def startsWithAnyB (s : String) (ms : List String) : Bool :=
  ms.any (fun m => pyStartsWith s m)

/-- Python `c in s` for a single character. -/
def containsCharB (s : String) (c : Char) : Bool := s.data.contains c

/-- Index of the first occurrence of `c` (Python `s.find(c)`); equals the
length of the list when `c` is absent (the code only uses it under a
membership guard, where it agrees with `find`). -/
def pyFindL (c : Char) : List Char → Nat
  | [] => 0
  | x :: xs => if x = c then 0 else pyFindL c xs + 1

/-- Python slice `l[a:b]` for nonnegative bounds. -/
def pySliceL (a b : Nat) (l : List Char) : List Char := (l.take b).drop a

/-- Python `s.split(c, 1)[1]` when `c` occurs: everything after the first
occurrence of `c`. -/
def afterFirst (c : Char) (s : String) : String :=
  ⟨s.data.drop (pyFindL c s.data + 1)⟩

/-- Index of the first occurrence of the substring `pat`, if any. -/
def findSubL (pat : List Char) : List Char → Option Nat
  | [] => if pat.isPrefixOf ([] : List Char) then some 0 else none
  | c :: rest =>
    if pat.isPrefixOf (c :: rest) then some 0
    else (findSubL pat rest).map (fun n => n + 1)

/-- Python `s.split(sep, 1)` for a nonempty separator. -/
def pySplitOnce (sep s : String) : List String :=
  match findSubL sep.data s.data with
  | some i => [⟨s.data.take i⟩, ⟨s.data.drop (i + sep.data.length)⟩]
  | none => [s]

/-- Python `pat in s` for a substring. -/
def containsSubB (pat s : String) : Bool := (findSubL pat.data s.data).isSome

/-- Python `s.endswith(p)`; models an end-anchored `re.search`. -/
def endsWithB (s p : String) : Bool := p.data.isSuffixOf s.data

/-- Fuel-indexed worker for Python `str.replace` (all non-overlapping
occurrences, scanning left to right).  With fuel at least the length of
the list the fuel never runs out. -/
def pyReplaceGo (pat rep : List Char) : Nat → List Char → List Char
  | 0, s => s
  | Nat.succ n, s =>
    match s with
    | [] => []
    | c :: rest =>
      if pat ≠ [] ∧ pat.isPrefixOf s then rep ++ pyReplaceGo pat rep n (s.drop pat.length)
      else c :: pyReplaceGo pat rep n rest

/-- Python `s.replace(pat, rep)` (the code only uses nonempty patterns). -/
def pyReplace (s pat rep : String) : String :=
  ⟨pyReplaceGo pat.data rep.data s.data.length s.data⟩

/-- Fuel-indexed worker for Python `str.split(sep)` with a nonempty
separator; `acc` holds the current chunk reversed. -/
def splitSeqGo (sep : List Char) : Nat → List Char → List Char → List (List Char)
  | 0, acc, _ => [acc.reverse]
  | Nat.succ n, acc, s =>
    match s with
    | [] => [acc.reverse]
    | c :: rest =>
      if sep ≠ [] ∧ sep.isPrefixOf s then
        acc.reverse :: splitSeqGo sep n [] (s.drop sep.length)
      else splitSeqGo sep n (c :: acc) rest

/-- Python `raw.split(sep)` for a nonempty separator string. -/
def pySplitSeqS (sep raw : String) : List String :=
  (splitSeqGo sep.data raw.data.length [] raw.data).map (fun l => ⟨l⟩)

/-- Python `raw.split(chr(10))`: split on every newline character. -/
def pySplitNl (raw : String) : List String :=
  (raw.data.splitOn '\n').map (fun l => ⟨l⟩)

/-- Python `" ".join(ls)`. -/
def joinSpace (ls : List String) : String := String.intercalate " " ls

/-- A parsed citation: entry of the `sources` list of the note
(dict with keys `title` and `url` in the code). -/
structure Source where
  title : String
  url : String
deriving Repr, DecidableEq

/-- Value of a field of the returned dict. -/
inductive PyVal where
  | str (s : String)
  | strList (l : List String)
  | srcList (l : List Source)
deriving Repr, DecidableEq

/-- The dict literal built at every return site of the method, in source
key order. -/
def mkDict (t s2 : String) (kps : List String) (srcs : List Source) :
    List (String × PyVal) :=
  [("title", PyVal.str t), ("summary", PyVal.str s2),
   ("key_points", PyVal.strList kps), ("sources", PyVal.srcList srcs)]

/-- All-defaults record returned on the short-input early exit. -/
def defaultsNote : List (String × PyVal) :=
  mkDict "Research Results" "No summary available" [] []

/-- Error-marked record returned by the `except` handler. -/
def errorNote : List (String × PyVal) :=
  mkDict "Research Results" "Error parsing research results" [] []

/-- The `current_section` values of the scan. -/
inductive NoteSection where
  | title
  | summary
  | keyPoints
  | sources
deriving Repr, DecidableEq

/-- Mutable locals of the line scan (`title`, `summary`, `key_points`,
`sources`, `current_section`, `summary_lines`). -/
structure ScanSt where
  title : String
  summary : String
  keyPoints : List String
  sources : List Source
  currentSection : Option NoteSection
  summaryLines : List String
deriving Repr, DecidableEq

/-- URL normalization applied to a nonempty extracted URL: strip spaces
and encoded spaces, then coerce an `https` scheme onto a domain-shaped
bare URL, discarding it otherwise. -/
def normalizeUrl (u : String) : String :=
  let u2 := pyReplace (pyReplace u " " "") "%20" ""
  if !(pyStartsWith u2 "http://" || pyStartsWith u2 "https://") then
    if containsCharB u2 '.' then "https://" ++ u2 else ""
  else u2

/-- Title/URL extraction from the content after the bracket index: the
paren branch uses Python `find` (first occurrence) for both parentheses;
then the dash branch splits once on the separator; else title-only. -/
def extractTitleUrl (content : String) : String × String :=
  if containsCharB content '(' && containsCharB content ')' then
    (pstrip ⟨pySliceL 0 (pyFindL '(' content.data) content.data⟩,
     pstrip ⟨pySliceL (pyFindL '(' content.data + 1) (pyFindL ')' content.data) content.data⟩)
  else if containsSubB " - " content then
    match pySplitOnce " - " content with
    | [a, b] => (pstrip a, pstrip b)
    | _ => ("", "")
  else (pstrip content, "")

/-- Source-line parser (lines 258 to 316 of the code): strips the bracket
index, extracts title and URL, substitutes the ordinal default title,
normalizes the URL, and accepts only titles longer than 3 characters. -/
def parseSourceLine (line : String) (nSources : Nat) : Option Source :=
  let content := if containsCharB line ']' then pstrip (afterFirst ']' line) else pstrip line
  let t0 := (extractTitleUrl content).1
  let u0 := (extractTitleUrl content).2
  let t1 := if t0 = "" then "Source " ++ toString (nSources + 1) else t0
  let u1 := if u0 ≠ "" then normalizeUrl u0 else u0
  if t1 ≠ "" ∧ 3 < t1.length then some ⟨t1, u1⟩ else none

/-- Key-point extraction for a bullet line: Python
`line.replace(chr(45), empty).strip()` removes every dash character, and
the point is kept only when nonempty and longer than 10 characters. -/
def keyPointOf (line : String) : Option String :=
  if pyStartsWith line "-" then
    if pstrip (pyReplace line "-" "") ≠ "" ∧ 10 < (pstrip (pyReplace line "-" "")).length then
      some (pstrip (pyReplace line "-" ""))
    else none
  else none

/-- The tuple of prefixes that stop a line from joining the summary. -/
def summaryBreakMarkers : List String :=
  ["-", "[", "TITLE:", "SUMMARY:", "KEY POINTS:", "SOURCES:", "IMPORTANT GUIDELINES:"]

/-- One iteration of the scan loop; the Bool is true when the loop
breaks (the guidelines terminator). -/
def scanStep (st : ScanSt) (line0 : String) : ScanSt × Bool :=
  let line := pstrip line0
  if pyStartsWith (pyUpper line) "TITLE:" then
    ({ st with title := pstrip (pyReplace line "TITLE:" ""),
               currentSection := some NoteSection.title }, false)
  else if pyStartsWith (pyUpper line) "SUMMARY:" then
    ({ st with currentSection := some NoteSection.summary, summaryLines := [] }, false)
  else if pyStartsWith (pyUpper line) "KEY POINTS:" then
    ({ st with currentSection := some NoteSection.keyPoints,
               summary := if st.summaryLines ≠ [] then pstrip (joinSpace st.summaryLines)
                          else st.summary }, false)
  else if pyStartsWith (pyUpper line) "SOURCES:" then
    ({ st with currentSection := some NoteSection.sources,
               summary := if st.summaryLines ≠ [] ∧ st.summary = "No summary available" then
                            pstrip (joinSpace st.summaryLines)
                          else st.summary }, false)
  else if pyStartsWith (pyUpper line) "IMPORTANT GUIDELINES:" then
    ({ st with summary := if st.summaryLines ≠ [] ∧ st.summary = "No summary available" then
                            pstrip (joinSpace st.summaryLines)
                          else st.summary }, true)
  else if st.currentSection = some NoteSection.summary ∧ line ≠ "" ∧
          startsWithAnyB line summaryBreakMarkers = false then
    ({ st with summaryLines := st.summaryLines ++ [line] }, false)
  else if st.currentSection = some NoteSection.keyPoints ∧ pyStartsWith line "-" = true then
    ({ st with keyPoints := st.keyPoints ++ (keyPointOf line).toList }, false)
  else if st.currentSection = some NoteSection.sources ∧ pyStartsWith line "[" = true then
    ({ st with sources := st.sources ++ (parseSourceLine line st.sources.length).toList }, false)
  else (st, false)

/-- The scan loop over the lines, honouring the break flag. -/
def runScan (st : ScanSt) : List String → ScanSt
  | [] => st
  | l :: ls =>
    let r := scanStep st l
    if r.2 then r.1 else runScan r.1 ls

/-- Initial values of the scan locals. -/
def initScan : ScanSt :=
  ⟨"Research Results", "No summary available", [], [], none, []⟩

/-- The scan applied to the lines of the raw text. -/
def scanOf (raw : String) : ScanSt := runScan initScan (pySplitNl raw)

/-- Final flush of the summary accumulator after the loop. -/
def summaryFlushed (fs : ScanSt) : String :=
  if fs.summaryLines ≠ [] ∧ fs.summary = "No summary available" then
    pstrip (joinSpace fs.summaryLines)
  else fs.summary

/-- Cleanup pass: remove embedded SUMMARY: markers from a non-default
summary. -/
def summaryCleaned (fs : ScanSt) : String :=
  if summaryFlushed fs ≠ "" ∧ summaryFlushed fs ≠ "No summary available" then
    pstrip (pyReplace (summaryFlushed fs) "SUMMARY:" "")
  else summaryFlushed fs

/-- Condition on a paragraph to become the fallback summary: trimmed
length above 50 and trimmed text not starting with any of the four
prefixes of the tuple at line 332 (note: SUMMARY: is not among them). -/
def fallbackKeep (p : String) : Bool :=
  decide (50 < (pstrip p).length) &&
  !(startsWithAnyB (pstrip p) ["TITLE:", "KEY POINTS:", "SOURCES:", "IMPORTANT"])

/-- The fallback loop over the blank-line separated paragraphs, breaking
at the first hit. -/
def fallbackLoop (d : String) : List String → String
  | [] => d
  | p :: ps => if fallbackKeep p then pstrip p else fallbackLoop d ps

/-- Summary after the fallback extraction step (lines 328 to 335). -/
def summaryFinal (raw : String) (fs : ScanSt) : String :=
  if summaryCleaned fs = "No summary available" then
    fallbackLoop (summaryCleaned fs) (pySplitSeqS "\n\n" raw)
  else summaryCleaned fs

/-- Body of the try block.  The fallback-extraction guard at line 338
evaluates `len(sources) < 3 and search_results`; `search_results` is not
bound in the scope of the method (it is a local of run_research), so
whenever fewer than three sources were accepted the conjunct is
evaluated and raises NameError, which the except clause receives.  With
three or more sources the conjunction short-circuits and the assembled
record is returned.  The summary pipeline before that guard is pure and
its value is discarded on the error path. -/
def parseBody (raw : String) : Except String (List (String × PyVal)) :=
  if raw = "" ∨ (pstrip raw).length < 10 then Except.ok defaultsNote
  else if (scanOf raw).sources.length < 3 then
    Except.error "NameError: name search_results is not defined"
  else
    Except.ok (mkDict (scanOf raw).title (summaryFinal raw (scanOf raw))
      (scanOf raw).keyPoints (scanOf raw).sources)

/-- The whole method: the except handler converts any internal exception
into the error-marked default record. -/
def _parse_research_note (raw : String) : List (String × PyVal) :=
  match parseBody raw with
  | Except.ok d => d
  | Except.error _ => errorNote

/-- The required-field contract of `_validate_research_output`. -/
def requiredFields : List String := ["title", "summary", "key_points", "sources"]

/-- Field-presence loop of the validator; raising ValueError is modelled
by `Except.error`.  The remaining checks of the validator only log
warnings and are no-ops on the value. -/
def checkRequired (d : List (String × PyVal)) : List String → Except String Unit
  | [] => Except.ok ()
  | f :: fs =>
    if (d.lookup f).isSome then checkRequired d fs
    else Except.error ("Missing required field: " ++ f)

/-- `_validate_research_output`. -/
def _validate_research_output (d : List (String × PyVal)) : Except String Unit :=
  checkRequired d requiredFields

/-- A call of the parser as observed by the process: the only effect of
the method besides its return value is appending log lines; no state is
read.  Models one invocation as state-passing over the log. -/
def parseCall (log : List String) (raw : String) :
    List (String × PyVal) × List String :=
  (_parse_research_note raw, log ++ ["Raw text to parse: " ++ raw])

/-- Characters forbidden inside the URL pattern character class. -/
def urlForbiddenChars : List Char :=
  ['<', '>', '"', Char.ofNat 123, Char.ofNat 125, '|', '\\', '^',
   Char.ofNat 96, '[', ']']

/-- The bracketed character class of the URL pattern. -/
def urlClassA (c : Char) : Bool := !(isPySpace c || urlForbiddenChars.contains c)

/-- The optional path tail of the URL pattern: end of string, or a slash
followed by class characters. -/
def urlTailOk : List Char → Bool
  | [] => true
  | c :: rest => c == '/' && rest.all urlClassA

/-- The URL pattern after the scheme: a nonempty run of class
characters, a literal dot, at least two letters, then the optional path,
anchored at the end; the existential split mirrors regex backtracking. -/
def urlRegexAfterScheme (r : List Char) : Bool :=
  (List.range r.length).any (fun i =>
    decide (1 ≤ i) && (r.take i).all urlClassA && (r.get? i == some '.') &&
    ((List.range (r.length - i)).any (fun k =>
      decide (2 ≤ k) && decide (((r.drop (i + 1)).take k).length = k) &&
      ((r.drop (i + 1)).take k).all Char.isAlpha &&
      urlTailOk (r.drop (i + 1 + k)))))

/-- `re.match` of the anchored URL pattern. -/
def urlRegexMatch (url : String) : Bool :=
  if pyStartsWith url "https://" then urlRegexAfterScheme (url.data.drop 8)
  else if pyStartsWith url "http://" then urlRegexAfterScheme (url.data.drop 7)
  else false

/-- The blacklist of placeholder signatures, searched case
insensitively. -/
def urlBlacklistHit (url : String) : Bool :=
  containsSubB "no%20url" (pyLower url) || containsSubB "example.com" (pyLower url) ||
  containsSubB "placeholder" (pyLower url) || endsWithB (pyLower url) "http://" ||
  endsWithB (pyLower url) "https://" || containsSubB "..." (pyLower url) ||
  containsSubB "%20%20" (pyLower url)

/-- `_is_valid_url`: pattern match, then blacklist, then length bounds.
Every operation of the body is total on strings, so the fail-closed
except clause of the source is unreachable and the function is total. -/
def _is_valid_url (url : String) : Bool :=
  if !(urlRegexMatch url) then false
  else if urlBlacklistHit url then false
  else if url.length < 15 || 500 < url.length then false
  else true

/-- The end-to-end input of the spec (section 8, last bullet). -/
def c1input : String :=
  "TITLE: AI in Health\n\nSUMMARY: AI helps diagnosis.\nIt improves speed.\n\nKEY POINTS:\n- Faster diagnosis times reported\n- Broader access to specialists\n\nSOURCES:\n[1] Health AI Report (https://healthai.example.org/report)"

/-- The input refuting the original reading of the fallback-summary
marker filter: its first paragraph begins with SUMMARY: and exceeds 50
trimmed characters. -/
def c8summary : String :=
  "SUMMARY: aaaaaaaaaaaaaaaaaaaaaaaaaaaaaaaaaaaaaaaaaaaaaaaaaaaa"

/-- Full note text around `c8summary` with three well-formed sources, so
the parse returns normally and the chosen fallback summary is
observable. -/
def c8input : String :=
  c8summary ++
  "\n\nSOURCES:\n[1] Alpha Paper (https://a.example)\n[2] Beta Paper (https://b.example)\n[3] Gamma Paper (https://c.example)"

/-- Taking up to the first occurrence of a character is taking while the
character has not been seen. -/
theorem take_pyFindL (c : Char) :
    ∀ l : List Char, l.take (pyFindL c l) = l.takeWhile (fun x => !(x == c)) := by
  intro l
  induction l with
  | nil => rfl
  | cons x xs ih =>
    by_cases hx : x = c
    · subst hx
      simp [pyFindL, List.takeWhile_cons]
    · have hbx : (x == c) = false := beq_eq_false_iff_ne.mpr hx
      simp [pyFindL, hx, List.takeWhile_cons, hbx, List.take_succ_cons, ih]

/-- The slice between the first opening and the first closing
parenthesis, described with takeWhile and dropWhile. -/
theorem sliceBetweenFirst :
    ∀ l : List Char,
      (l.take (pyFindL ')' l)).drop (pyFindL '(' l + 1) =
      ((l.takeWhile (fun x => !(x == ')'))).dropWhile (fun x => !(x == '('))).drop 1 := by
  intro l
  induction l with
  | nil => rfl
  | cons x xs ih =>
    by_cases hq : x = ')'
    · subst hq
      simp [pyFindL, List.takeWhile_cons]
    · by_cases hp : x = '('
      · subst hp
        have hbq : (('(' : Char) == ')') = false := by decide
        simp [pyFindL, hq, hbq, List.takeWhile_cons, List.take_succ_cons,
          List.dropWhile_cons, take_pyFindL]
      · have hbq : (x == ')') = false := beq_eq_false_iff_ne.mpr hq
        have hbp : (x == '(') = false := beq_eq_false_iff_ne.mpr hp
        simp [pyFindL, hq, hp, hbq, hbp, List.takeWhile_cons, List.take_succ_cons,
          List.dropWhile_cons, List.drop_succ_cons, ih]

/-- Replacing the dash by the empty string removes exactly the dash
characters. -/
theorem replaceGo_dash :
    ∀ (n : Nat) (s : List Char), s.length ≤ n →
      pyReplaceGo ['-'] [] n s = s.filter (fun c => !(c == '-')) := by
  intro n
  induction n with
  | zero =>
    intro s hs
    cases s with
    | nil => rfl
    | cons c rest => simp at hs
  | succ n ih =>
    intro s hs
    cases s with
    | nil => rfl
    | cons c rest =>
      by_cases hc : c = '-'
      · subst hc
        have hpre : (['-'] : List Char).isPrefixOf ('-' :: rest) = true := by
          simp [List.isPrefixOf]
        simp only [pyReplaceGo, hpre, ne_eq, List.cons_ne_nil, not_false_iff, true_and,
          if_pos, List.nil_append, List.drop_succ_cons, List.drop_zero, List.filter]
        exact ih rest (Nat.le_of_succ_le_succ (by simpa using hs))
      · have hb : (('-' : Char) == c) = false := beq_eq_false_iff_ne.mpr (fun h => hc h.symm)
        have hpre : (['-'] : List Char).isPrefixOf (c :: rest) = false := by
          simp [List.isPrefixOf, hb]
        have hbc : (c == '-') = false := beq_eq_false_iff_ne.mpr hc
        simp only [pyReplaceGo, hpre, ne_eq, Bool.false_eq_true, and_false, if_neg,
          not_false_iff, List.filter, hbc]
        simp only [Bool.not_false, List.filter_cons, hbc]
        exact congrArg (c :: ·) (ih rest (Nat.le_of_succ_le_succ (by simpa using hs)))

/-- The fallback loop returns the trimmed first paragraph accepted by
the filter, or the default when none qualifies. -/
theorem fallbackLoop_eq_find (d : String) :
    ∀ ps : List String,
      fallbackLoop d ps = (((ps.find? fallbackKeep).map pstrip).getD d) := by
  intro ps
  induction ps with
  | nil => rfl
  | cons p ps ih =>
    by_cases h : fallbackKeep p = true
    · simp [fallbackLoop, List.find?_cons, h]
    · have h2 : fallbackKeep p = false := by
        revert h; cases fallbackKeep p <;> simp
      simp [fallbackLoop, List.find?_cons, h2, ih]

/-- Every return path of the parser produces the four-key dict literal. -/
theorem parse_note_shape (raw : String) :
    ∃ t s2 k sr, _parse_research_note raw = mkDict t s2 k sr := by
  unfold _parse_research_note
  cases h : parseBody raw with
  | ok d =>
    unfold parseBody at h
    split at h
    · injection h with h2
      exact ⟨_, _, _, _, h2.symm⟩
    · split at h
      · exact Except.noConfusion h
      · injection h with h2
        exact ⟨_, _, _, _, h2.symm⟩
  | error e => exact ⟨_, _, _, _, rfl⟩

/-- Claim C1, original statement refuted: on the end-to-end input of the
spec the parser does not return a record titled AI in Health; the single
source puts it on the unbound search_results path and it returns the
error-marked default record. -/
theorem parse_note_c1_spec_example_false :
    _parse_research_note c1input = errorNote ∧
    List.lookup "title" (_parse_research_note c1input) ≠ some (PyVal.str "AI in Health") := by
  constructor
  · decide
  · decide

/-- Claim C1, amended: the end-to-end input returns the error-marked
default record, while the section scan before the failure extracts title
AI in Health, summary It improves speed. (the text on the SUMMARY: line
itself is discarded by the scanner), exactly the two key points, and
exactly one source whose url is unchanged. -/
theorem parse_note_c1_actual_behavior :
    _parse_research_note c1input = errorNote ∧
    (scanOf c1input).title = "AI in Health" ∧
    summaryCleaned (scanOf c1input) = "It improves speed." ∧
    (scanOf c1input).keyPoints =
      ["Faster diagnosis times reported", "Broader access to specialists"] ∧
    (scanOf c1input).sources =
      [⟨"Health AI Report", "https://healthai.example.org/report"⟩] := by
  refine ⟨by decide, by decide, by decide, by decide, by decide⟩

/-- Claim C2: for every input string the parser returns normally with
either the value of the try body, or, whenever the body raises
internally, exactly the error-marked default record. -/
theorem parse_note_never_propagates :
    ∀ raw : String,
      (∃ d, parseBody raw = Except.ok d ∧ _parse_research_note raw = d) ∨
      (∃ e, parseBody raw = Except.error e ∧ _parse_research_note raw = errorNote) := by
  intro raw
  cases h : parseBody raw with
  | ok d =>
    refine Or.inl ⟨d, rfl, ?_⟩
    unfold _parse_research_note
    rw [h]
  | error e =>
    refine Or.inr ⟨e, rfl, ?_⟩
    unfold _parse_research_note
    rw [h]

/-- Claim C3: every return path of the parser carries all four fields
title, summary, key_points and sources, and the output validator
accepts every parser output. -/
theorem parse_note_fields_always_present :
    ∀ raw : String,
      (List.lookup "title" (_parse_research_note raw)).isSome = true ∧
      (List.lookup "summary" (_parse_research_note raw)).isSome = true ∧
      (List.lookup "key_points" (_parse_research_note raw)).isSome = true ∧
      (List.lookup "sources" (_parse_research_note raw)).isSome = true ∧
      _validate_research_output (_parse_research_note raw) = Except.ok () := by
  intro raw
  obtain ⟨t, s2, k, sr, hm⟩ := parse_note_shape raw
  rw [hm]
  exact ⟨rfl, rfl, rfl, rfl, rfl⟩

/-- Claim C4: the three source-line formats parse to the expected title
and url records, with the https scheme prepended to a bare domain and
an empty url for the title-only form. -/
theorem parse_source_line_three_formats :
    parseSourceLine "[1] Example Paper (https://example1.com/article)" 0 =
      some ⟨"Example Paper", "https://example1.com/article"⟩ ∧
    parseSourceLine "[2] Example Paper - example2.com" 1 =
      some ⟨"Example Paper", "https://example2.com"⟩ ∧
    parseSourceLine "[3] Untitled" 2 = some ⟨"Untitled", ""⟩ := by
  refine ⟨by decide, by decide, by decide⟩

/-- Claim C5, original statement refuted: on a content with two
parenthesis pairs the code extracts the text of the first pair (beta)
as URL and the text before the first opening parenthesis as title, not
the last pair as the claim states. -/
theorem source_url_last_paren_false :
    extractTitleUrl "Alpha (beta) note (https://x.com/page)" = ("Alpha", "beta") ∧
    (("Alpha", "beta") : String × String) ≠ ("Alpha (beta) note", "https://x.com/page") := by
  constructor
  · decide
  · decide

/-- Claim C5, amended: when the content holds both parentheses, the
extracted URL is the substring between the first opening parenthesis and
the first closing parenthesis (empty when the closing one comes first),
and the title is everything before the first opening parenthesis. -/
theorem extract_title_url_first_paren_pair :
    ∀ content : String,
      containsCharB content '(' = true → containsCharB content ')' = true →
      extractTitleUrl content =
        (pstrip ⟨content.data.takeWhile (fun x => !(x == '('))⟩,
         pstrip ⟨((content.data.takeWhile (fun x => !(x == ')'))).dropWhile
            (fun x => !(x == '('))).drop 1⟩) := by
  intro content h1 h2
  unfold extractTitleUrl
  rw [h1, h2]
  have e1 : pySliceL 0 (pyFindL '(' content.data) content.data
      = content.data.takeWhile (fun x => !(x == '(')) := by
    unfold pySliceL
    rw [List.drop_zero]
    exact take_pyFindL '(' content.data
  have e2 : pySliceL (pyFindL '(' content.data + 1) (pyFindL ')' content.data) content.data
      = ((content.data.takeWhile (fun x => !(x == ')'))).dropWhile
          (fun x => !(x == '('))).drop 1 := by
    unfold pySliceL
    exact sliceBetweenFirst content.data
  rw [e1, e2]
  exact if_pos rfl

/-- Witness for the amended claim C5 at the two-pair content. -/
theorem extract_title_url_first_paren_pair_witness :
    extractTitleUrl "Alpha (beta) note (https://x.com/page)" = ("Alpha", "beta") :=
  (extract_title_url_first_paren_pair "Alpha (beta) note (https://x.com/page)"
    (by decide) (by decide)).trans (by decide)

/-- Claim C6, original statement refuted: on a bullet line with interior
dashes the code removes every dash, not only the leading bullet. -/
theorem key_point_interior_dash_false :
    keyPointOf "- state-of-the-art methods shown" = some "stateoftheart methods shown" ∧
    (some "stateoftheart methods shown" : Option String) ≠
      some "state-of-the-art methods shown" := by
  constructor
  · decide
  · decide

/-- Claim C6, amended: for every line starting with a dash, every dash
character of the line is removed and the remainder trimmed; the point
is kept exactly when its length exceeds 10 characters. -/
theorem key_point_removes_all_dashes :
    ∀ line : String, pyStartsWith line "-" = true →
      keyPointOf line =
        (if 10 < (pstrip ⟨line.data.filter (fun c => !(c == '-'))⟩).length then
           some (pstrip ⟨line.data.filter (fun c => !(c == '-'))⟩)
         else none) := by
  intro line h
  unfold keyPointOf
  rw [if_pos h]
  have hrep : pyReplace line "-" "" = ⟨line.data.filter (fun c => !(c == '-'))⟩ := by
    unfold pyReplace
    exact congrArg String.mk (replaceGo_dash line.data.length line.data (le_refl _))
  rw [hrep]
  by_cases h10 : 10 < (pstrip ⟨line.data.filter (fun c => !(c == '-'))⟩).length
  · have hne : pstrip ⟨line.data.filter (fun c => !(c == '-'))⟩ ≠ "" := by
      intro h0
      rw [h0] at h10
      exact absurd h10 (by decide)
    rw [if_pos ⟨hne, h10⟩, if_pos h10]
  · rw [if_neg (fun hc => h10 hc.2), if_neg h10]

/-- Witness for the amended claim C6 at a substantial bullet line. -/
theorem key_point_removes_all_dashes_witness :
    keyPointOf "- This is a substantial point" = some "This is a substantial point" :=
  (key_point_removes_all_dashes "- This is a substantial point" (by decide)).trans
    (by decide)

/-- Claim C7: the three example URLs validate as the spec states, and
every string shorter than 15 or longer than 500 characters is rejected
whatever its shape. -/
theorem is_valid_url_examples_and_bounds :
    _is_valid_url "https://example.com/page" = false ∧
    _is_valid_url "https://news.site.org/a1" = true ∧
    _is_valid_url "http://" = false ∧
    ∀ url : String, url.length < 15 ∨ 500 < url.length → _is_valid_url url = false := by
  refine ⟨by decide, by decide, by decide, ?_⟩
  intro url h
  unfold _is_valid_url
  split
  · rfl
  · split
    · rfl
    · have hlen : (decide (url.length < 15) || decide (500 < url.length)) = true := by
        rcases h with h | h
        · simp [h]
        · simp [h]
      rw [if_pos hlen]

/-- Witness for the bounds part of claim C7 at a ten-character URL. -/
theorem is_valid_url_examples_and_bounds_witness :
    _is_valid_url "http://a.b" = false :=
  is_valid_url_examples_and_bounds.2.2.2 "http://a.b" (Or.inl (by decide))

/-- Claim C8, original statement refuted: on an input whose only long
paragraph begins with the SUMMARY: marker, the fallback selects that
paragraph (the marker tuple at line 332 omits SUMMARY:), so the
returned summary begins with a formal section marker. -/
theorem fallback_summary_marker_false :
    List.lookup "summary" (_parse_research_note c8input) = some (PyVal.str c8summary) ∧
    pyStartsWith c8summary "SUMMARY:" = true ∧
    c8summary ≠ "No summary available" := by
  refine ⟨by decide, by decide, by decide⟩

/-- Claim C8, amended: when the summary is still the default after scan
and cleanup, it becomes the trimmed first paragraph of the blank-line
split whose trimmed length exceeds 50 and whose trimmed text does not
begin with TITLE:, KEY POINTS:, SOURCES: or IMPORTANT (the SUMMARY:
marker is not excluded), the default being kept when no paragraph
qualifies. -/
theorem fallback_summary_actual_filter :
    ∀ (raw : String) (fs : ScanSt),
      summaryFinal raw fs =
        (if summaryCleaned fs = "No summary available" then
           ((((pySplitSeqS "\n\n" raw).find? fallbackKeep).map pstrip).getD
             (summaryCleaned fs))
         else summaryCleaned fs) := by
  intro raw fs
  unfold summaryFinal
  split
  · exact fallbackLoop_eq_find _ _
  · rfl

/-- Claim C9: a parse call reads no state besides the raw text, so two
successive invocations on the same text, the second started from the
log state left by the first, return identical records. -/
theorem parse_note_deterministic :
    ∀ (log : List String) (raw : String),
      (parseCall log raw).1 = (parseCall (parseCall log raw).2 raw).1 := by
  intro log raw
  rfl

/-- Claim C10: for every raw text of trimmed length at least 10 whose
section scan accepts fewer than three sources, the unbound
search_results guard raises and the parser returns the error-marked
default record. -/
theorem parse_note_few_sources_error :
    ∀ raw : String, 10 ≤ (pstrip raw).length → (scanOf raw).sources.length < 3 →
      _parse_research_note raw = errorNote := by
  intro raw h1 h2
  have hc : ¬(raw = "" ∨ (pstrip raw).length < 10) := by
    rintro (rfl | hlt)
    · exact absurd h1 (by decide)
    · omega
  have hb : parseBody raw = Except.error "NameError: name search_results is not defined" := by
    unfold parseBody
    rw [if_neg hc, if_pos h2]
  unfold _parse_research_note
  rw [hb]

/-- Witness for claim C10 at a marker-free twelve-character text. -/
theorem parse_note_few_sources_error_witness :
    _parse_research_note "aaaaaaaaaaaa" = errorNote :=
  parse_note_few_sources_error "aaaaaaaaaaaa" (by decide) (by decide)
